import Mathlib

/-!
Verification development for the gpx2garmin repository.

The repository has two Python source files:

* `src/generate_run_gpx.py` — builds a randomized GPX running track and
  writes it to `output/run_YYYYMMDD_HHMMSS.gpx`;
* `src/garmin_uploader.py` — command-line entry point that resolves a file
  path (generating a track when none is given), reads credentials from the
  environment, logs in to Garmin Connect and uploads the file.

The embedding below translates the source into Lean.  Numbers are modelled
with `ℚ` (idealized exact arithmetic in place of IEEE doubles).  The
standard-library random draws are modelled as oracle streams:

* `u : ℕ → ℚ` — the successive values of `random.random()` underlying
  `random.uniform(a, b) = a + (b - a) * random()`; the library contract
  `0 ≤ u k < 1` is taken as a hypothesis where needed;
* `randI : ℤ → ℤ → ℕ → ℤ` — the result of the k-th `random.randint(lo, hi)`
  call; the library contract `lo ≤ hi → lo ≤ randI lo hi k ≤ hi` is taken as
  a hypothesis where needed;
* `cosf sinf : ℚ → ℚ` — oracles for `math.cos` / `math.sin`, with the
  contract `|cosf x| ≤ 1` taken as a hypothesis where a bound is needed;
* `time0 : ℚ` — the value of `datetime.utcnow()` as seconds since the Unix
  epoch.

Effects (directory creation, file write, printing, network calls, process
exit) are reified into result records and event traces.
-/

/-- Model of Python `random.uniform(a, b)`: CPython computes
`a + (b - a) * random()` where `random()` draws from `[0, 1)`; the
underlying draw is supplied as the argument `t`. -/
def pyUniform (a b t : ℚ) : ℚ := a + (b - a) * t

/-- Model of Python `int(x)` applied to a float: truncation toward zero. -/
def pyInt (q : ℚ) : ℤ := if 0 ≤ q then ⌊q⌋ else -⌊-q⌋

/-- Model of `math.pi`: the shortest decimal representation
`3.141592653589793` of the double value. -/
def mathPi : ℚ := 3.141592653589793

/-- Model of `math.radians(x) = x * pi / 180`. -/
def mathRadians (x : ℚ) : ℚ := x * mathPi / 180

/-- Zero-pad a natural number to two decimal digits (as `strftime` does for
`%m %d %H %M %S`). -/
def pad2 (n : ℕ) : String := if n < 10 then "0" ++ toString n else toString n

/-- Zero-pad a natural number to four decimal digits (as `strftime` does for
`%Y`). -/
def pad4 (n : ℕ) : String :=
  if n < 10 then "000" ++ toString n
  else if n < 100 then "00" ++ toString n
  else if n < 1000 then "0" ++ toString n
  else toString n

/-- Convert a count of days since 1970-01-01 to the civil (year, month, day)
date, following the standard civil-from-days algorithm used by calendar
libraries. -/
def civilFromDays (z0 : ℤ) : ℤ × ℕ × ℕ :=
  let z := z0 + 719468
  let era := z.ediv 146097
  let doe := (z.emod 146097).toNat
  let yoe := (doe - doe / 1460 + doe / 36524 - doe / 146096) / 365
  let doy := doe - (365 * yoe + yoe / 4 - yoe / 100)
  let mp := (5 * doy + 2) / 153
  let d := doy - (153 * mp + 2) / 5 + 1
  let m := if mp < 10 then mp + 3 else mp - 9
  (era * 400 + yoe + (if m ≤ 2 then 1 else 0), m, d)

/-- Date part (year, month, day) of a timestamp given in seconds since the
Unix epoch. -/
def dateOfSeconds (t : ℚ) : ℤ × ℕ × ℕ := civilFromDays (Int.ediv ⌊t⌋ 86400)

/-- Time-of-day part (hour, minute, second) of a timestamp in seconds since
the Unix epoch.  `strftime` shows whole seconds, so the fractional part of
the timestamp is dropped. -/
def timeOfDaySeconds (t : ℚ) : ℕ × ℕ × ℕ :=
  let sod := (Int.emod ⌊t⌋ 86400).toNat
  (sod / 3600, sod % 3600 / 60, sod % 60)

/-- Digit block `YYYYMMDD` produced by `strftime("%Y%m%d")`. -/
def dateDigits (t : ℚ) : String :=
  let c := dateOfSeconds t
  pad4 c.1.toNat ++ pad2 c.2.1 ++ pad2 c.2.2

/-- Digit block `HHMMSS` produced by `strftime("%H%M%S")`. -/
def timeDigits (t : ℚ) : String :=
  let c := timeOfDaySeconds t
  pad2 c.1 ++ pad2 c.2.1 ++ pad2 c.2.2

/-- Model of `t.strftime("%Y-%m-%dT%H:%M:%S.000Z")` (line 54 and line 71 of
`generate_run_gpx.py`): the millisecond field is the literal `000`. -/
def fmtTimeZ (t : ℚ) : String :=
  let c := dateOfSeconds t
  let s := timeOfDaySeconds t
  pad4 c.1.toNat ++ "-" ++ pad2 c.2.1 ++ "-" ++ pad2 c.2.2 ++ "T" ++
    pad2 s.1 ++ ":" ++ pad2 s.2.1 ++ ":" ++ pad2 s.2.2 ++ ".000Z"

/-- Model of `time0.strftime("output/run_%Y%m%d_%H%M%S.gpx")` (line 101). -/
def fnOf (t : ℚ) : String :=
  "output/run_" ++ dateDigits t ++ "_" ++ timeDigits t ++ ".gpx"

/-- Round half to even, the rounding used by Python float formatting. -/
def halfEven (q : ℚ) : ℤ :=
  if q - ⌊q⌋ < 1/2 then ⌊q⌋
  else if 1/2 < q - ⌊q⌋ then ⌊q⌋ + 1
  else if ⌊q⌋ % 2 = 0 then ⌊q⌋ else ⌊q⌋ + 1

/-- Model of Python fixed-point formatting with `prec` fractional digits,
as in `f"{x:.15f}"` and `f"{x:.6f}"`. -/
def fmtFixed (prec : ℕ) (q : ℚ) : String :=
  let m := halfEven (q * (10 : ℚ) ^ prec)
  let a := m.natAbs
  (if m < 0 then "-" else "") ++ toString (a / 10 ^ prec) ++ "." ++
    (toString (a % 10 ^ prec + 10 ^ prec)).drop 1

/-- One sample of the generated track, with the values the source computes
for one `trkpt` (latitude, longitude, elevation, timestamp, heart rate,
cadence). -/
structure TrackPoint where
  lat : ℚ
  lon : ℚ
  ele : ℚ
  time : ℚ
  hr : ℤ
  cad : ℤ
deriving DecidableEq, Repr

/-- Mutable state of the random walk: current latitude, longitude and
bearing (`lat`, `lon`, `bearing` in the source). -/
structure WalkState where
  lat : ℚ
  lon : ℚ
  bearing : ℚ
deriving DecidableEq, Repr

/-- One iteration of the loop body at lines 63-67 of
`generate_run_gpx.py`: perturb the bearing by `uniform(-radians(2),
radians(2))`, draw `d = dist_km * uniform(0.95, 1.05)`, convert to
latitude/longitude deltas with the flat-Earth constants and accumulate.
`u1`, `u2` are the two `random()` draws consumed. -/
def stepWalk (cosf sinf : ℚ → ℚ) (distKm u1 u2 : ℚ) (s : WalkState) : WalkState :=
  let bearing := s.bearing + pyUniform (-(mathRadians 2)) (mathRadians 2) u1
  let d := distKm * pyUniform 0.95 1.05 u2
  let dlat := d * cosf bearing / 110.574
  let dlon := d * sinf bearing / (111.320 * cosf (mathRadians s.lat))
  { lat := s.lat + dlat, lon := s.lon + dlon, bearing := bearing }

/-- Walk state after a number of steps, starting from state `s` at absolute
point index `i`.  The loop for point index `j` consumes the `random()`
draws numbered `3 + 3 j` (bearing noise), `4 + 3 j` (distance jitter) and
`5 + 3 j` (elevation); draws `0`, `1`, `2` were consumed before the loop. -/
def walkFrom (cosf sinf : ℚ → ℚ) (u : ℕ → ℚ) (distKm : ℚ) (s : WalkState) (i : ℕ) :
    ℕ → WalkState
  | 0 => s
  | n + 1 => stepWalk cosf sinf distKm (u (3 + 3 * (i + n))) (u (4 + 3 * (i + n)))
      (walkFrom cosf sinf u distKm s i n)

/-- The loop at lines 62-77 of `generate_run_gpx.py`, producing the points
of the track in order: `i` is the index of the next point, `n` the number of
points still to produce and `s` the current walk state. -/
def genPointsAux (cosf sinf : ℚ → ℚ) (u : ℕ → ℚ) (randI : ℤ → ℤ → ℕ → ℤ)
    (hr_min hr_max cad : ℤ) (distKm time0 deltaT : ℚ) :
    ℕ → ℕ → WalkState → List TrackPoint
  | _, 0, _ => []
  | i, n + 1, s =>
    let s2 := stepWalk cosf sinf distKm (u (3 + 3 * i)) (u (4 + 3 * i)) s
    { lat := s2.lat, lon := s2.lon,
      ele := pyUniform 10 30 (u (5 + 3 * i)),
      time := time0 + (i : ℚ) * deltaT,
      hr := randI hr_min hr_max i,
      cad := cad } :: genPointsAux cosf sinf u randI hr_min hr_max cad distKm time0 deltaT
        (i + 1) n s2

/-- Starting state of the walk (lines 46-48): base coordinates perturbed by
`uniform(-0.001, 0.001)` and an initial bearing `uniform(0, 2 pi)`. -/
def startState (u : ℕ → ℚ) (base_lat base_lon : ℚ) : WalkState :=
  { lat := base_lat + pyUniform (-0.001) 0.001 (u 0),
    lon := base_lon + pyUniform (-0.001) 0.001 (u 1),
    bearing := pyUniform 0 (2 * mathPi) (u 2) }

/-- Per-point nominal distance `dist_km = total_distance_km / total_points`
(line 42), where `total_points = int(total_distance_km * points_per_km)`. -/
def genDistKm (total_distance_km points_per_km : ℚ) : ℚ :=
  total_distance_km / ((pyInt (total_distance_km * points_per_km) : ℤ) : ℚ)

/-- The full list of track points generated by `generate_run_gpx` with the
given arguments and oracles. -/
def genArgsTrack (cosf sinf : ℚ → ℚ) (u : ℕ → ℚ) (randI : ℤ → ℤ → ℕ → ℤ)
    (time0 base_lat base_lon total_distance_km points_per_km : ℚ)
    (hr_min hr_max cad : ℤ) : List TrackPoint :=
  genPointsAux cosf sinf u randI hr_min hr_max cad
    (genDistKm total_distance_km points_per_km) time0 (360 / points_per_km)
    0 (pyInt (total_distance_km * points_per_km)).toNat
    (startState u base_lat base_lon)

/-- XML tree as built by `xml.etree.ElementTree`: an element has an optional
namespace URI (the `{uri}tag` form used in the source), a tag, attributes in
insertion order and children; text content is a child node. -/
inductive Xml where
  | elem (ns : Option String) (tag : String) (attrs : List (String × String))
      (children : List Xml)
  | text (s : String)
deriving Repr

/-- Namespace URI `NS_DEFAULT` of `generate_run_gpx.py`. -/
def NS_DEFAULT : String := "http://www.topografix.com/GPX/1/1"

/-- Namespace URI `NS_XSI`. -/
def NS_XSI : String := "http://www.w3.org/2001/XMLSchema-instance"

/-- Namespace URI `NS_NS2`. -/
def NS_NS2 : String := "http://www.garmin.com/xmlschemas/GpxExtensions/v3"

/-- Namespace URI `NS_NS3`. -/
def NS_NS3 : String := "http://www.garmin.com/xmlschemas/TrackPointExtension/v1"

/-- The `metadata` element built at lines 52-55. -/
def metadataXml (time0 : ℚ) : Xml :=
  .elem none "metadata" []
    [.elem none "link" [("href", "connect.garmin.com")]
       [.elem none "text" [] [.text "Garmin Connect"]],
     .elem none "time" [] [.text (fmtTimeZ time0)]]

/-- One `trkpt` element as built at lines 70-77: `lat`/`lon` attributes with
15 fractional digits, `ele` with 6, a `.000Z` timestamp, and the
`TrackPointExtension` block in the `NS_NS3` namespace. -/
def trkptXml (pt : TrackPoint) : Xml :=
  .elem none "trkpt"
    [("lat", fmtFixed 15 pt.lat), ("lon", fmtFixed 15 pt.lon)]
    [.elem none "ele" [] [.text (fmtFixed 6 pt.ele)],
     .elem none "time" [] [.text (fmtTimeZ pt.time)],
     .elem none "extensions" []
       [.elem (some NS_NS3) "TrackPointExtension" []
          [.elem (some NS_NS3) "hr" [] [.text (toString pt.hr)],
           .elem (some NS_NS3) "cad" [] [.text (toString pt.cad)]]]]

/-- The `trk` element built at lines 57-60 with the track points. -/
def trkXml (pts : List TrackPoint) : Xml :=
  .elem none "trk" []
    [.elem none "name" [] [.text "County Londonderry Running"],
     .elem none "type" [] [.text "running"],
     .elem none "trkseg" [] (pts.map trkptXml)]

/-- The prefixes registered with `ET.register_namespace` at lines 28-29 of
the source (the empty prefix for the default namespace, and `xsi`).  The
`ns3` prefix is never registered. -/
def nsRegistry : List (String × String) := [(NS_DEFAULT, ""), (NS_XSI, "xsi")]

mutual

/-- Namespace URIs of element tags in document order. -/
def collectUris : Xml → List String
  | .text _ => []
  | .elem ns _ _ children =>
      (match ns with | some uri => [uri] | none => []) ++ collectUrisList children

/-- Namespace URIs of a forest in document order. -/
def collectUrisList : List Xml → List String
  | [] => []
  | x :: xs => collectUris x ++ collectUrisList xs

end

/-- Prefix assignment of the `ElementTree` serializer: a URI gets its
registered prefix when one exists, otherwise the generated prefix `ns<k>`
where `k` counts the namespaces assigned so far. -/
def nsAssign (uris : List String) : List (String × String) :=
  uris.foldl
    (fun acc uri =>
      if (acc.lookup uri).isSome then acc
      else acc ++ [(uri, ((nsRegistry.lookup uri).getD ("ns" ++ toString acc.length)))])
    []

mutual

/-- Rewrite namespaced tags to their prefixed serialized form using the
assignment `nsmap`. -/
def renameTags (nsmap : List (String × String)) : Xml → Xml
  | .text s => .text s
  | .elem ns tag attrs children =>
      let tag2 := match ns with
        | none => tag
        | some uri => match nsmap.lookup uri with
          | some "" => tag
          | some p => p ++ ":" ++ tag
          | none => tag
      .elem none tag2 attrs (renameTagsList nsmap children)

/-- Rewrite a forest. -/
def renameTagsList (nsmap : List (String × String)) : List Xml → List Xml
  | [] => []
  | x :: xs => renameTags nsmap x :: renameTagsList nsmap xs

end

/-- Insertion sort of namespace declarations by prefix name, matching the
sorted order the `ElementTree` serializer uses when writing them. -/
def insertDecl (d : String × String) : List (String × String) → List (String × String)
  | [] => [d]
  | e :: es => if d.1 ≤ e.1 then d :: e :: es else e :: insertDecl d es

/-- Sort declarations by prefix name. -/
def sortDecls (ds : List (String × String)) : List (String × String) :=
  ds.foldr insertDecl []

/-- Model of serializing a tree with `ET.tostring` and parsing it back with
`minidom`: tags take their assigned prefixes and the `xmlns` declarations
appear, sorted by prefix, as the first attributes of the root element. -/
def toPrefixed (x : Xml) : Xml :=
  let nsmap := nsAssign (collectUris x)
  let decls := sortDecls (nsmap.map (fun pr =>
    (if pr.2 = "" then ("xmlns", pr.1) else ("xmlns:" ++ pr.2, pr.1))))
  match renameTags nsmap x with
  | .elem ns tag attrs children => .elem ns tag (decls ++ attrs) children
  | .text s => .text s

/-- Character-data escaping used when writing text and attribute values. -/
def escXml (s : String) : String :=
  (((s.replace "&" "&amp;").replace "<" "&lt;").replace "\"" "&quot;").replace
    ">" "&gt;"

mutual

/-- Model of `minidom` `writexml` with an indent string: an element whose
single child is text is written on one line, otherwise the children are
written each on its own indented line. -/
def writeXml (indent addindent newl : String) : Xml → String
  | .text s => indent ++ escXml s ++ newl
  | .elem _ tag attrs children =>
    let astr := String.join (attrs.map
      (fun kv => " " ++ kv.1 ++ "=" ++ "\"" ++ escXml kv.2 ++ "\""))
    match children with
    | [] => indent ++ "<" ++ tag ++ astr ++ "/>" ++ newl
    | [.text s] =>
        indent ++ "<" ++ tag ++ astr ++ ">" ++ escXml s ++ "</" ++ tag ++ ">" ++ newl
    | cs =>
        indent ++ "<" ++ tag ++ astr ++ ">" ++ newl ++
          writeXmlList (indent ++ addindent) addindent newl cs ++
          indent ++ "</" ++ tag ++ ">" ++ newl

/-- Children in order. -/
def writeXmlList (indent addindent newl : String) : List Xml → String
  | [] => ""
  | x :: xs => writeXml indent addindent newl x ++ writeXmlList indent addindent newl xs

end

/-- Model of `minidom.parseString(...).toprettyxml(indent="  ")` with the
leading XML declaration stripped, as done at lines 92-93 of the source. -/
def prettyXml (x : Xml) : String := writeXml "" "  " "\n" x

/-- The literal GPX header template of lines 83-90. -/
def gpxHeader : String :=
  "<?xml version=\"1.0\" encoding=\"UTF-8\"?>\n" ++
  "<gpx creator=\"Garmin Connect\" version=\"1.1\"\n" ++
  "  xsi:schemaLocation=\"" ++ NS_DEFAULT ++ " http://www.topografix.com/GPX/11.xsd\"\n" ++
  "  xmlns:ns3=\"" ++ NS_NS3 ++ "\"\n" ++
  "  xmlns=\"" ++ NS_DEFAULT ++ "\"\n" ++
  "  xmlns:xsi=\"" ++ NS_XSI ++ "\" xmlns:ns2=\"" ++ NS_NS2 ++ "\">\n"

/-- Child of an element at an index (a text placeholder if out of range). -/
def childAt (x : Xml) (j : ℕ) : Xml :=
  match x with
  | .elem _ _ _ cs => cs.getD j (.text "")
  | .text _ => .text ""

/-- Tag of an element (empty for text nodes). -/
def tagOf : Xml → String
  | .elem _ t _ _ => t
  | .text _ => ""

/-- Observable outcome of a successful `generate_run_gpx` call: the track
points, the composed document text, the directory passed to `os.makedirs`,
the file name opened for writing, the line printed to stdout and the value
returned to the caller. -/
structure GenResult where
  track : List TrackPoint
  content : String
  mkdirArg : String
  writtenFile : String
  printed : String
  returned : String
deriving Repr

/-- Result record of a successful `generate_run_gpx` call: the track, the
composed document (header, pretty metadata, blank line, pretty track,
closing tag, lines 83-96), the `os.makedirs` argument, the opened file
name, the printed confirmation and the returned value (lines 99-105). -/
def genResult (cosf sinf : ℚ → ℚ) (u : ℕ → ℚ) (randI : ℤ → ℤ → ℕ → ℤ)
    (time0 : ℚ)
    (base_lat base_lon total_distance_km points_per_km : ℚ)
    (hr_min hr_max cad : ℤ) : GenResult :=
  let pts := genArgsTrack cosf sinf u randI time0 base_lat base_lon
    total_distance_km points_per_km hr_min hr_max cad
  { track := pts,
    content := gpxHeader ++ prettyXml (toPrefixed (metadataXml time0)) ++ "\n" ++
      prettyXml (toPrefixed (trkXml pts)) ++ "</gpx>",
    mkdirArg := "output",
    writtenFile := fnOf time0,
    printed := "GPX file saved to " ++ fnOf time0,
    returned := fnOf time0 }

/-- Shallow embedding of `generate_run_gpx` (lines 32-105 of
`generate_run_gpx.py`).  When `int(total_distance_km * points_per_km)` is
zero the computation of `dist_km` divides by zero, which in Python raises
`ZeroDivisionError`; this is modelled by the `Except.error` branch. -/
def generate_run_gpx (cosf sinf : ℚ → ℚ) (u : ℕ → ℚ) (randI : ℤ → ℤ → ℕ → ℤ)
    (time0 : ℚ)
    (base_lat base_lon total_distance_km points_per_km : ℚ)
    (hr_min hr_max cad : ℤ) : Except String GenResult :=
  if pyInt (total_distance_km * points_per_km) = 0 then
    Except.error "ZeroDivisionError: float division by zero"
  else
    Except.ok (genResult cosf sinf u randI time0 base_lat base_lon
      total_distance_km points_per_km hr_min hr_max cad)

/-- Observable events of one uploader invocation: stdout lines, stderr
lines, the two network calls, a call into the generator, and process exit
with a status. -/
inductive Ev where
  | out (s : String)
  | err (s : String)
  | dotenv
  | loginCall
  | uploadCall (p : String)
  | generateCall
  | exited (n : ℕ)
deriving DecidableEq, Repr

/-- Python truthiness test `not x` applied to `os.getenv`: true when the
variable is absent or its value is the empty string. -/
def pyFalsy : Option String → Bool
  | none => true
  | some s => s = ""

/-- Index of the last occurrence of a character in a list, `-1` when absent,
mirroring Python `str.rfind`. -/
def lastIdx (c : Char) (cs : List Char) : ℤ :=
  (cs.foldl (fun acc ch => (acc.1 + 1, if ch = c then acc.1 + 1 else acc.2))
    ((-1 : ℤ), (-1 : ℤ))).2

/-- Model of `os.path.splitext(p)[1]` on POSIX: the extension starts at the
last dot that lies after the last path separator and is preceded, within the
basename, by at least one non-dot character. -/
def splitextExt (p : String) : String :=
  let cs := p.data
  let sepIndex := lastIdx '/' cs
  let dotIndex := lastIdx '.' cs
  if sepIndex < dotIndex then
    if ((cs.drop (sepIndex + 1).toNat).take (dotIndex.toNat - (sepIndex + 1).toNat)).any
        (fun ch => ch ≠ '.') then
      String.mk (cs.drop dotIndex.toNat)
    else ""
  else ""

/-- ASCII model of `str.lower()`, enough for file extensions. -/
def asciiLower (s : String) : String :=
  String.mk (s.data.map (fun c =>
    if 'A' ≤ c ∧ c ≤ 'Z' then Char.ofNat (c.toNat + 32) else c))

/-- Error line printed when credentials are missing. -/
def credErrMsg : String :=
  "Error: GARMIN_USERNAME and GARMIN_PASSWORD must be set in environment"

/-- Shallow embedding of `upload_to_garmin` (lines 18-52 of
`garmin_uploader.py`) as the trace of observable events.  `env` is the
process environment after `load_dotenv()` merged the optional `.env` file;
`loginRes` and `uploadRes` are the outcomes of the two remote calls, an
`Except.error` carrying the text of the raised exception. -/
def upload_to_garmin (env : String → Option String)
    (loginRes uploadRes : Except String Unit) (file_path : String) : List Ev :=
  Ev.dotenv ::
  (if pyFalsy (env "GARMIN_USERNAME") || pyFalsy (env "GARMIN_PASSWORD") then
    [Ev.err credErrMsg, Ev.exited 1]
  else
    Ev.loginCall ::
    (match loginRes with
     | Except.error e => [Ev.err ("Login failed: " ++ e), Ev.exited 1]
     | Except.ok _ =>
       Ev.out "✅ Logged in to Garmin Connect" ::
       (if asciiLower (splitextExt file_path) ≠ ".fit" ∧
           asciiLower (splitextExt file_path) ≠ ".gpx" then
         [Ev.err "Error: File must be .gpx or .fit", Ev.exited 1]
       else
         Ev.out ("Uploading " ++ file_path ++ " as a running activity...") ::
         Ev.uploadCall file_path ::
         (match uploadRes with
          | Except.error e => [Ev.err ("Upload failed: " ++ e), Ev.exited 1]
          | Except.ok _ => [Ev.out "✅ Upload complete!"]))))

/-- Shallow embedding of the `__main__` block of `garmin_uploader.py`
(lines 55-67): parse the optional `--file` argument, check the path exists
when one was given, otherwise call the generator, then upload.  `isfile`
models `os.path.isfile` and `genPath` the path returned by
`generate_run_gpx()`. -/
def uploaderMain (env : String → Option String)
    (loginRes uploadRes : Except String Unit) (isfile : String → Bool)
    (fileArg : Option String) (genPath : String) : List Ev :=
  match fileArg with
  | some p =>
      if isfile p then upload_to_garmin env loginRes uploadRes p
      else [Ev.err ("Error: file not found: " ++ p), Ev.exited 1]
  | none => Ev.generateCall :: upload_to_garmin env loginRes uploadRes genPath

section lemmas

variable (cosf sinf : ℚ → ℚ) (u : ℕ → ℚ) (randI : ℤ → ℤ → ℕ → ℤ)
variable (hr_min hr_max cad : ℤ) (distKm time0 deltaT : ℚ)

/-- The loop emits one point per iteration. -/
theorem genPointsAux_length (i n : ℕ) (s : WalkState) :
    (genPointsAux cosf sinf u randI hr_min hr_max cad distKm time0 deltaT i n s).length
      = n := by
  induction n generalizing i s with
  | zero => rfl
  | succ n ih => simpa [genPointsAux] using ih (i + 1) _

/-- Starting one step later from the stepped state traverses the same
states. -/
theorem walkFrom_shift (n i : ℕ) (s : WalkState) :
    walkFrom cosf sinf u distKm
        (stepWalk cosf sinf distKm (u (3 + 3 * i)) (u (4 + 3 * i)) s) (i + 1) n
      = walkFrom cosf sinf u distKm s i (n + 1) := by
  induction n with
  | zero => simp [walkFrom]
  | succ n ih =>
      have h1 : i + 1 + n = i + (n + 1) := by omega
      simp only [walkFrom, h1, ih]

/-- Closed form of the point emitted at offset `j` of the loop starting at
absolute index `i` in state `s`. -/
theorem genPointsAux_get (n i : ℕ) (s : WalkState) (j : ℕ) (hj : j < n)
    (h : j < (genPointsAux cosf sinf u randI hr_min hr_max cad distKm time0 deltaT
        i n s).length) :
    (genPointsAux cosf sinf u randI hr_min hr_max cad distKm time0 deltaT
        i n s).get ⟨j, h⟩ =
      { lat := (walkFrom cosf sinf u distKm s i (j + 1)).lat,
        lon := (walkFrom cosf sinf u distKm s i (j + 1)).lon,
        ele := pyUniform 10 30 (u (5 + 3 * (i + j))),
        time := time0 + ((i + j : ℕ) : ℚ) * deltaT,
        hr := randI hr_min hr_max (i + j),
        cad := cad } := by
  induction n generalizing i s j with
  | zero => exact absurd hj (Nat.not_lt_zero j)
  | succ n ih =>
      cases j with
      | zero => simp [genPointsAux, walkFrom]
      | succ k =>
          have hj2 : k < n := by omega
          have h2 : k < (genPointsAux cosf sinf u randI hr_min hr_max cad distKm
              time0 deltaT (i + 1) n
              (stepWalk cosf sinf distKm (u (3 + 3 * i)) (u (4 + 3 * i)) s)).length := by
            rw [genPointsAux_length]; exact hj2
          have step := ih (i + 1)
            (stepWalk cosf sinf distKm (u (3 + 3 * i)) (u (4 + 3 * i)) s) k hj2 h2
          have hidx : i + 1 + k = i + (k + 1) := by omega
          have hshift := walkFrom_shift cosf sinf u distKm (k + 1) i s
          simp only [genPointsAux, List.get_cons_succ]
          rw [step, hidx, hshift]

end lemmas

/-- Truncation toward zero agrees with the floor on nonnegative values. -/
theorem pyInt_eq_floor (q : ℚ) (h : 0 ≤ q) : pyInt q = ⌊q⌋ := by
  simp [pyInt, h]

/-- Claim C10: `generate_run_gpx` has the unstated precondition
`int(total_distance_km * points_per_km) ≥ 1`; whenever that value is zero
the computation of `dist_km` divides by zero and the call fails before
producing any track or file. -/
theorem claim_C10_zero_points (cosf sinf : ℚ → ℚ) (u : ℕ → ℚ)
    (randI : ℤ → ℤ → ℕ → ℤ)
    (time0 base_lat base_lon total_distance_km points_per_km : ℚ)
    (hr_min hr_max cad : ℤ)
    (h : pyInt (total_distance_km * points_per_km) = 0) :
    generate_run_gpx cosf sinf u randI time0 base_lat base_lon
        total_distance_km points_per_km hr_min hr_max cad =
      Except.error "ZeroDivisionError: float division by zero" := by
  simp [generate_run_gpx, h]

/-- Witness for C10 at the concrete input of the claim:
`total_distance_km = 0.5`, `points_per_km = 1`. -/
theorem claim_C10_witness :
    pyInt ((0.5 : ℚ) * 1) = 0 ∧
    generate_run_gpx (fun _ => 0) (fun _ => 0) (fun _ => 0) (fun lo _ _ => lo) 0
        54.597311099110506 (-5.9302454388246995) 0.5 1 120 150 120 =
      Except.error "ZeroDivisionError: float division by zero" := by
  have h : pyInt ((0.5 : ℚ) * 1) = 0 := by
    rw [pyInt_eq_floor _ (by norm_num)]
    norm_num [Int.floor_eq_iff]
  exact ⟨h, claim_C10_zero_points _ _ _ _ _ _ _ _ _ _ _ _ h⟩

/-- Claim C2: with `total_distance_km > 0` and
`floor(total_distance_km * points_per_km) ≥ 1`, the call succeeds and the
generated track contains exactly `floor(total_distance_km * points_per_km)`
track points. -/
theorem claim_C2_point_count (cosf sinf : ℚ → ℚ) (u : ℕ → ℚ)
    (randI : ℤ → ℤ → ℕ → ℤ)
    (time0 base_lat base_lon total_distance_km points_per_km : ℚ)
    (hr_min hr_max cad : ℤ)
    (_htot : 0 < total_distance_km)
    (hfl : 1 ≤ ⌊total_distance_km * points_per_km⌋) :
    ∃ g, generate_run_gpx cosf sinf u randI time0 base_lat base_lon
        total_distance_km points_per_km hr_min hr_max cad = Except.ok g ∧
      g.track.length = (⌊total_distance_km * points_per_km⌋).toNat := by
  have h1 : (1 : ℚ) ≤ total_distance_km * points_per_km := by
    exact_mod_cast Int.le_floor.mp hfl
  have h0 : (0 : ℚ) ≤ total_distance_km * points_per_km :=
    le_trans zero_le_one h1
  have hpy : pyInt (total_distance_km * points_per_km)
      = ⌊total_distance_km * points_per_km⌋ := pyInt_eq_floor _ h0
  have hne : pyInt (total_distance_km * points_per_km) ≠ 0 := by
    rw [hpy]; omega
  refine ⟨genResult cosf sinf u randI time0 base_lat base_lon
    total_distance_km points_per_km hr_min hr_max cad, ?_, ?_⟩
  · simp only [generate_run_gpx, if_neg hne]
  · simp only [genResult, genArgsTrack, genPointsAux_length, hpy]

/-- Witness for C2: 100 points for the default 10.0 km at 10 points/km, and
5 points for 1.0 km at 5 points/km. -/
theorem claim_C2_witness :
    (∃ g, generate_run_gpx (fun _ => 0) (fun _ => 0) (fun _ => 0)
        (fun lo _ _ => lo) 0 54.597311099110506 (-5.9302454388246995)
        10.0 10 120 150 120 = Except.ok g ∧ g.track.length = 100) ∧
    (∃ g, generate_run_gpx (fun _ => 0) (fun _ => 0) (fun _ => 0)
        (fun lo _ _ => lo) 0 54.597311099110506 (-5.9302454388246995)
        1.0 5 120 150 120 = Except.ok g ∧ g.track.length = 5) := by
  constructor
  · obtain ⟨g, hg, hlen⟩ := claim_C2_point_count (fun _ => 0) (fun _ => 0)
      (fun _ => 0) (fun lo _ _ => lo) 0 54.597311099110506
      (-5.9302454388246995) 10.0 10 120 150 120 (by norm_num)
      (by norm_num [Int.le_floor])
    refine ⟨g, hg, ?_⟩
    rw [hlen]
    norm_num [Int.floor_eq_iff]
    decide
  · obtain ⟨g, hg, hlen⟩ := claim_C2_point_count (fun _ => 0) (fun _ => 0)
      (fun _ => 0) (fun lo _ _ => lo) 0 54.597311099110506
      (-5.9302454388246995) 1.0 5 120 150 120 (by norm_num)
      (by norm_num [Int.le_floor])
    refine ⟨g, hg, ?_⟩
    rw [hlen]
    norm_num [Int.floor_eq_iff]
    decide

/-- Claim C6: a successful call writes into the local `output` directory,
names the file `run_<YYYYMMDD>_<HHMMSS>.gpx` with digits taken from the same
start instant that stamps the metadata time and the first point, prints a
confirmation of the saved path, and returns that path. -/
theorem claim_C6_output (cosf sinf : ℚ → ℚ) (u : ℕ → ℚ)
    (randI : ℤ → ℤ → ℕ → ℤ)
    (time0 base_lat base_lon total_distance_km points_per_km : ℚ)
    (hr_min hr_max cad : ℤ)
    (hfl : 1 ≤ ⌊total_distance_km * points_per_km⌋) :
    ∃ g, generate_run_gpx cosf sinf u randI time0 base_lat base_lon
        total_distance_km points_per_km hr_min hr_max cad = Except.ok g ∧
      g.mkdirArg = "output" ∧
      g.writtenFile =
        "output/run_" ++ dateDigits time0 ++ "_" ++ timeDigits time0 ++ ".gpx" ∧
      g.printed = "GPX file saved to " ++ g.writtenFile ∧
      g.returned = g.writtenFile ∧
      g.content = gpxHeader ++ prettyXml (toPrefixed (metadataXml time0)) ++ "\n" ++
        prettyXml (toPrefixed (trkXml g.track)) ++ "</gpx>" ∧
      (∀ h0 : 0 < g.track.length, (g.track.get ⟨0, h0⟩).time = time0) := by
  have h1 : (1 : ℚ) ≤ total_distance_km * points_per_km := by
    exact_mod_cast Int.le_floor.mp hfl
  have hpy : pyInt (total_distance_km * points_per_km)
      = ⌊total_distance_km * points_per_km⌋ :=
    pyInt_eq_floor _ (le_trans zero_le_one h1)
  have hne : pyInt (total_distance_km * points_per_km) ≠ 0 := by
    rw [hpy]; omega
  refine ⟨genResult cosf sinf u randI time0 base_lat base_lon
    total_distance_km points_per_km hr_min hr_max cad,
    ?_, rfl, rfl, rfl, rfl, rfl, ?_⟩
  · simp only [generate_run_gpx, if_neg hne]
  · intro h0
    have hn : 0 < (pyInt (total_distance_km * points_per_km)).toNat := by
      simpa [genResult, genArgsTrack, genPointsAux_length] using h0
    have hget := genPointsAux_get cosf sinf u randI hr_min hr_max cad
      (genDistKm total_distance_km points_per_km) time0 (360 / points_per_km)
      (pyInt (total_distance_km * points_per_km)).toNat 0
      (startState u base_lat base_lon) 0 hn h0
    simpa [genResult, genArgsTrack] using congrArg TrackPoint.time hget

/-- Claim C7: when `GARMIN_USERNAME` or `GARMIN_PASSWORD` is absent or
empty, the uploader prints an error to stderr and exits with status 1
before any network call; the check runs at the start of the upload step,
after path resolution, so without a `--file` argument the generator is
invoked before the check. -/
theorem claim_C7_missing_credentials (env : String → Option String)
    (loginRes uploadRes : Except String Unit) (isfile : String → Bool)
    (genPath : String)
    (hcred : pyFalsy (env "GARMIN_USERNAME") = true ∨
      pyFalsy (env "GARMIN_PASSWORD") = true) :
    uploaderMain env loginRes uploadRes isfile none genPath =
        [Ev.generateCall, Ev.dotenv, Ev.err credErrMsg, Ev.exited 1] ∧
      (∀ p, isfile p = true →
        uploaderMain env loginRes uploadRes isfile (some p) genPath =
          [Ev.dotenv, Ev.err credErrMsg, Ev.exited 1]) ∧
      (∀ p, isfile p = false →
        uploaderMain env loginRes uploadRes isfile (some p) genPath =
          [Ev.err ("Error: file not found: " ++ p), Ev.exited 1]) ∧
      (∀ fileArg, Ev.loginCall ∉ uploaderMain env loginRes uploadRes isfile
          fileArg genPath ∧
        ∀ q, Ev.uploadCall q ∉ uploaderMain env loginRes uploadRes isfile
          fileArg genPath) := by
  have hb : (pyFalsy (env "GARMIN_USERNAME") ||
      pyFalsy (env "GARMIN_PASSWORD")) = true := by
    rcases hcred with h | h <;> simp [h]
  refine ⟨?_, ?_, ?_, ?_⟩
  · simp [uploaderMain, upload_to_garmin, hb]
  · intro p hp
    simp [uploaderMain, upload_to_garmin, hp, hb]
  · intro p hp
    simp [uploaderMain, hp]
  · intro fileArg
    match fileArg with
    | none =>
        refine ⟨?_, fun q => ?_⟩ <;> simp [uploaderMain, upload_to_garmin, hb]
    | some p =>
        cases hp : isfile p with
        | true =>
            refine ⟨?_, fun q => ?_⟩ <;>
              simp [uploaderMain, upload_to_garmin, hp, hb]
        | false =>
            refine ⟨?_, fun q => ?_⟩ <;> simp [uploaderMain, hp]

/-- Witness for C7 with an empty environment and no `--file` argument:
generation happens first, then the credential error and exit 1. -/
theorem claim_C7_witness :
    uploaderMain (fun _ => none) (Except.ok ()) (Except.ok ())
        (fun _ => true) none "output/run.gpx" =
      [Ev.generateCall, Ev.dotenv, Ev.err credErrMsg, Ev.exited 1] :=
  (claim_C7_missing_credentials (fun _ => none) (Except.ok ()) (Except.ok ())
    (fun _ => true) "output/run.gpx" (Or.inl (by decide))).1

/-- Claim C8: with credentials present and a successful login, a resolved
path whose lower-cased extension is neither `.fit` nor `.gpx` (including no
extension) makes the process print an error and exit 1 after the
authentication step and before any upload call. -/
theorem claim_C8_bad_extension (env : String → Option String)
    (uploadRes : Except String Unit) (p : String)
    (hU : pyFalsy (env "GARMIN_USERNAME") = false)
    (hP : pyFalsy (env "GARMIN_PASSWORD") = false)
    (hext : asciiLower (splitextExt p) ≠ ".fit" ∧
      asciiLower (splitextExt p) ≠ ".gpx") :
    upload_to_garmin env (Except.ok ()) uploadRes p =
        [Ev.dotenv, Ev.loginCall, Ev.out "✅ Logged in to Garmin Connect",
         Ev.err "Error: File must be .gpx or .fit", Ev.exited 1] ∧
      ∀ q, Ev.uploadCall q ∉ upload_to_garmin env (Except.ok ()) uploadRes p := by
  have h1 : upload_to_garmin env (Except.ok ()) uploadRes p =
      [Ev.dotenv, Ev.loginCall, Ev.out "✅ Logged in to Garmin Connect",
       Ev.err "Error: File must be .gpx or .fit", Ev.exited 1] := by
    simp [upload_to_garmin, hU, hP, hext.1, hext.2]
  refine ⟨h1, fun q => ?_⟩
  rw [h1]
  simp

/-- Witness for C8 on the existing-looking file `run.txt`. -/
theorem claim_C8_witness :
    upload_to_garmin
        (fun k => if k = "GARMIN_USERNAME" then some "user" else
          if k = "GARMIN_PASSWORD" then some "pass" else none)
        (Except.ok ()) (Except.ok ()) "run.txt" =
      [Ev.dotenv, Ev.loginCall, Ev.out "✅ Logged in to Garmin Connect",
       Ev.err "Error: File must be .gpx or .fit", Ev.exited 1] :=
  (claim_C8_bad_extension _ _ "run.txt" (by decide) (by decide)
    ⟨by decide, by decide⟩).1

/-- Claim C9: a failing login prints `Login failed: <message>` to stderr and
exits 1 without attempting the upload; a successful login followed by a
failing upload prints `Upload failed: <message>` and exits 1; and in every
run the upload call happens only when the login call succeeded. -/
theorem claim_C9_failure_paths (env : String → Option String)
    (loginRes uploadRes : Except String Unit) (p : String)
    (hU : pyFalsy (env "GARMIN_USERNAME") = false)
    (hP : pyFalsy (env "GARMIN_PASSWORD") = false) :
    (∀ e, loginRes = Except.error e →
      upload_to_garmin env loginRes uploadRes p =
        [Ev.dotenv, Ev.loginCall, Ev.err ("Login failed: " ++ e),
         Ev.exited 1]) ∧
    (∀ e, loginRes = Except.ok () → uploadRes = Except.error e →
      (asciiLower (splitextExt p) = ".fit" ∨ asciiLower (splitextExt p) = ".gpx") →
      upload_to_garmin env loginRes uploadRes p =
        [Ev.dotenv, Ev.loginCall, Ev.out "✅ Logged in to Garmin Connect",
         Ev.out ("Uploading " ++ p ++ " as a running activity..."),
         Ev.uploadCall p, Ev.err ("Upload failed: " ++ e), Ev.exited 1]) ∧
    (∀ (env2 : String → Option String) (lr2 ur2 : Except String Unit)
        (p2 q : String), Ev.uploadCall q ∈ upload_to_garmin env2 lr2 ur2 p2 →
      lr2 = Except.ok ()) := by
  refine ⟨?_, ?_, ?_⟩
  · intro e he
    subst he
    simp [upload_to_garmin, hU, hP]
  · intro e hl hu hok
    subst hl
    subst hu
    rcases hok with h | h <;> simp [upload_to_garmin, hU, hP, h]
  · intro env2 lr2 ur2 p2 q hq
    by_cases hb : (pyFalsy (env2 "GARMIN_USERNAME") ||
        pyFalsy (env2 "GARMIN_PASSWORD")) = true
    · simp [upload_to_garmin, hb] at hq
    · rw [Bool.not_eq_true] at hb
      cases lr2 with
      | ok un => cases un; rfl
      | error e => simp [upload_to_garmin, hb] at hq

/-- Witness for C9: a login raising `boom` yields the login-failure trace. -/
theorem claim_C9_witness :
    upload_to_garmin
        (fun k => if k = "GARMIN_USERNAME" then some "user" else
          if k = "GARMIN_PASSWORD" then some "pass" else none)
        (Except.error "boom") (Except.ok ()) "run.gpx" =
      [Ev.dotenv, Ev.loginCall, Ev.err ("Login failed: " ++ "boom"),
       Ev.exited 1] :=
  (claim_C9_failure_paths _ (Except.error "boom") (Except.ok ()) "run.gpx"
    (by decide) (by decide)).1 "boom" rfl

section trackLemmas

variable (cosf sinf : ℚ → ℚ) (u : ℕ → ℚ) (randI : ℤ → ℤ → ℕ → ℤ)
variable (hr_min hr_max cad : ℤ) (distKm time0 deltaT : ℚ)

/-- Timestamps of the loop output in closed form. -/
theorem genPointsAux_map_time (n i : ℕ) (s : WalkState) :
    (genPointsAux cosf sinf u randI hr_min hr_max cad distKm time0 deltaT
        i n s).map TrackPoint.time
      = (List.range n).map (fun j => time0 + ((i + j : ℕ) : ℚ) * deltaT) := by
  induction n generalizing i s with
  | zero => rfl
  | succ n ih =>
      rw [List.range_succ_eq_map]
      simp only [genPointsAux, List.map_cons, List.map_map]
      refine congrArg₂ List.cons (by simp) ?_
      rw [ih (i + 1)]
      apply List.map_congr_left
      intro j _
      have hidx : i + 1 + j = i + (j + 1) := by omega
      simp [Function.comp, hidx]

/-- Every emitted point draws its elevation from `uniform(10, 30)`, its
heart rate from `randint(hr_min, hr_max)` and copies the fixed cadence. -/
theorem genPointsAux_mem_fields (n i : ℕ) (s : WalkState) (pt : TrackPoint)
    (hpt : pt ∈ genPointsAux cosf sinf u randI hr_min hr_max cad distKm time0
      deltaT i n s) :
    (∃ k, pt.ele = pyUniform 10 30 (u k)) ∧
      (∃ k, pt.hr = randI hr_min hr_max k) ∧ pt.cad = cad := by
  induction n generalizing i s with
  | zero => simp [genPointsAux] at hpt
  | succ n ih =>
      simp only [genPointsAux, List.mem_cons] at hpt
      rcases hpt with h | h
      · subst h
        exact ⟨⟨5 + 3 * i, rfl⟩, ⟨i, rfl⟩, rfl⟩
      · exact ih (i + 1) _ h

end trackLemmas

/-- Any successful run of the generator carries exactly the modelled track. -/
theorem generate_track_eq (cosf sinf : ℚ → ℚ) (u : ℕ → ℚ)
    (randI : ℤ → ℤ → ℕ → ℤ)
    (time0 base_lat base_lon total_distance_km points_per_km : ℚ)
    (hr_min hr_max cad : ℤ) :
    ∀ g, generate_run_gpx cosf sinf u randI time0 base_lat base_lon
        total_distance_km points_per_km hr_min hr_max cad = Except.ok g →
      g.track = genArgsTrack cosf sinf u randI time0 base_lat base_lon
        total_distance_km points_per_km hr_min hr_max cad := by
  intro g hg
  by_cases h0 : pyInt (total_distance_km * points_per_km) = 0
  · simp [generate_run_gpx, h0] at hg
  · simp only [generate_run_gpx, if_neg h0, Except.ok.injEq] at hg
    rw [← hg]
    rfl

/-- Claim C3: point `i` is stamped `start_time + i * (360 / points_per_km)`
seconds, consecutive points differ by exactly `360 / points_per_km`
seconds, timestamps are strictly increasing, and no two points share a
timestamp. -/
theorem claim_C3_timestamps (cosf sinf : ℚ → ℚ) (u : ℕ → ℚ)
    (randI : ℤ → ℤ → ℕ → ℤ)
    (time0 base_lat base_lon total_distance_km points_per_km : ℚ)
    (hr_min hr_max cad : ℤ)
    (hppk : 0 < points_per_km) :
    (∀ g, generate_run_gpx cosf sinf u randI time0 base_lat base_lon
        total_distance_km points_per_km hr_min hr_max cad = Except.ok g →
      g.track = genArgsTrack cosf sinf u randI time0 base_lat base_lon
        total_distance_km points_per_km hr_min hr_max cad) ∧
    ((genArgsTrack cosf sinf u randI time0 base_lat base_lon
        total_distance_km points_per_km hr_min hr_max cad).map TrackPoint.time
      = (List.range (pyInt (total_distance_km * points_per_km)).toNat).map
          (fun (j : ℕ) => time0 + (j : ℚ) * (360 / points_per_km))) ∧
    (∀ (j : ℕ) (a b : ℚ),
      ((genArgsTrack cosf sinf u randI time0 base_lat base_lon
        total_distance_km points_per_km hr_min hr_max cad).map
          TrackPoint.time)[j]? = some a →
      ((genArgsTrack cosf sinf u randI time0 base_lat base_lon
        total_distance_km points_per_km hr_min hr_max cad).map
          TrackPoint.time)[j + 1]? = some b →
      b - a = 360 / points_per_km) ∧
    (∀ (i j : ℕ) (a b : ℚ), i < j →
      ((genArgsTrack cosf sinf u randI time0 base_lat base_lon
        total_distance_km points_per_km hr_min hr_max cad).map
          TrackPoint.time)[i]? = some a →
      ((genArgsTrack cosf sinf u randI time0 base_lat base_lon
        total_distance_km points_per_km hr_min hr_max cad).map
          TrackPoint.time)[j]? = some b →
      a < b) ∧
    (∀ (i j : ℕ) (a b : ℚ), i ≠ j →
      ((genArgsTrack cosf sinf u randI time0 base_lat base_lon
        total_distance_km points_per_km hr_min hr_max cad).map
          TrackPoint.time)[i]? = some a →
      ((genArgsTrack cosf sinf u randI time0 base_lat base_lon
        total_distance_km points_per_km hr_min hr_max cad).map
          TrackPoint.time)[j]? = some b →
      a ≠ b) := by
  have hmap : (genArgsTrack cosf sinf u randI time0 base_lat base_lon
        total_distance_km points_per_km hr_min hr_max cad).map TrackPoint.time
      = (List.range (pyInt (total_distance_km * points_per_km)).toNat).map
          (fun (j : ℕ) => time0 + (j : ℚ) * (360 / points_per_km)) := by
    simp only [genArgsTrack]
    rw [genPointsAux_map_time]
    simp
  have key : ∀ (j : ℕ) (a : ℚ),
      ((genArgsTrack cosf sinf u randI time0 base_lat base_lon
        total_distance_km points_per_km hr_min hr_max cad).map
          TrackPoint.time)[j]? = some a →
      a = time0 + (j : ℚ) * (360 / points_per_km) := by
    intro j a ha
    rw [hmap, List.getElem?_map] at ha
    cases hr : (List.range (pyInt (total_distance_km * points_per_km)).toNat)[j]? with
    | none => rw [hr] at ha; simp at ha
    | some x =>
        have hx : x = j := by
          have := List.getElem?_range (n := (pyInt (total_distance_km *
            points_per_km)).toNat) (m := j)
          by_cases hj : j < (pyInt (total_distance_km * points_per_km)).toNat
          · rw [this hj] at hr; exact (Option.some.injEq _ _ ▸ hr).symm
          · rw [List.getElem?_eq_none_iff.mpr (by simpa using Nat.le_of_not_lt hj)]
              at hr
            exact absurd hr (by simp)
        rw [hr] at ha
        simp only [Option.map_some', Option.some.injEq] at ha
        rw [← ha, hx]
  have hdpos : 0 < 360 / points_per_km := div_pos (by norm_num) hppk
  refine ⟨generate_track_eq cosf sinf u randI time0 base_lat base_lon
    total_distance_km points_per_km hr_min hr_max cad, hmap, ?_, ?_, ?_⟩
  · intro j a b ha hb
    rw [key j a ha, key (j + 1) b hb]
    push_cast
    ring
  · intro i j a b hij ha hb
    rw [key i a ha, key j b hb]
    have hc : (i : ℚ) < (j : ℚ) := by exact_mod_cast hij
    nlinarith [mul_lt_mul_of_pos_right hc hdpos]
  · intro i j a b hij ha hb
    rcases Nat.lt_or_ge i j with h | h
    · have : a < b := by
        rw [key i a ha, key j b hb]
        have hc : (i : ℚ) < (j : ℚ) := by exact_mod_cast h
        nlinarith [mul_lt_mul_of_pos_right hc hdpos]
      exact ne_of_lt this
    · have hj : j < i := Nat.lt_of_le_of_ne h (fun he => hij he.symm)
      have : b < a := by
        rw [key i a ha, key j b hb]
        have hc : (j : ℚ) < (i : ℚ) := by exact_mod_cast hj
        nlinarith [mul_lt_mul_of_pos_right hc hdpos]
      exact (ne_of_lt this).symm

/-- Witness for C3 at the defaults (`points_per_km = 10`, spacing 36 s). -/
theorem claim_C3_witness :
    ((genArgsTrack (fun _ => 0) (fun _ => 0) (fun _ => 0) (fun lo _ _ => lo) 0
        54.597311099110506 (-5.9302454388246995) 10.0 10 120 150 120).map
          TrackPoint.time
      = (List.range (pyInt ((10.0 : ℚ) * 10)).toNat).map
          (fun (j : ℕ) => 0 + (j : ℚ) * (360 / 10))) ∧
    (360 : ℚ) / 10 = 36 :=
  ⟨(claim_C3_timestamps (fun _ => 0) (fun _ => 0) (fun _ => 0)
      (fun lo _ _ => lo) 0 54.597311099110506 (-5.9302454388246995) 10.0 10
      120 150 120 (by norm_num)).2.1,
   by norm_num⟩

/-- Claim C4: assuming the `randint` contract and `hr_min ≤ hr_max`, every
point's heart rate lies in `[hr_min, hr_max]`, every elevation lies in
`[10, 30)`, and every cadence equals the configured value. -/
theorem claim_C4_value_ranges (cosf sinf : ℚ → ℚ) (u : ℕ → ℚ)
    (randI : ℤ → ℤ → ℕ → ℤ)
    (time0 base_lat base_lon total_distance_km points_per_km : ℚ)
    (hr_min hr_max cad : ℤ)
    (hu : ∀ k, 0 ≤ u k ∧ u k < 1)
    (hri : ∀ lo hi k, lo ≤ hi → lo ≤ randI lo hi k ∧ randI lo hi k ≤ hi)
    (hbounds : hr_min ≤ hr_max) :
    (∀ g, generate_run_gpx cosf sinf u randI time0 base_lat base_lon
        total_distance_km points_per_km hr_min hr_max cad = Except.ok g →
      g.track = genArgsTrack cosf sinf u randI time0 base_lat base_lon
        total_distance_km points_per_km hr_min hr_max cad) ∧
    (∀ pt ∈ genArgsTrack cosf sinf u randI time0 base_lat base_lon
        total_distance_km points_per_km hr_min hr_max cad,
      (hr_min ≤ pt.hr ∧ pt.hr ≤ hr_max) ∧
      (10 ≤ pt.ele ∧ pt.ele < 30) ∧
      pt.cad = cad) := by
  refine ⟨generate_track_eq cosf sinf u randI time0 base_lat base_lon
    total_distance_km points_per_km hr_min hr_max cad, ?_⟩
  intro pt hpt
  simp only [genArgsTrack] at hpt
  obtain ⟨⟨k1, he⟩, ⟨k2, hh⟩, hc⟩ := genPointsAux_mem_fields cosf sinf u randI
    hr_min hr_max cad (genDistKm total_distance_km points_per_km) time0
    (360 / points_per_km) _ _ _ pt hpt
  refine ⟨?_, ?_, hc⟩
  · rw [hh]
    exact hri hr_min hr_max k2 hbounds
  · rw [he]
    have hk := hu k1
    unfold pyUniform
    constructor
    · nlinarith [hk.1]
    · nlinarith [hk.2]

/-- Witness for C4 with the default range `[120, 150]` and cadence 120. -/
theorem claim_C4_witness :
    List.Forall (fun pt =>
      ((120 : ℤ) ≤ pt.hr ∧ pt.hr ≤ 150) ∧
      ((10 : ℚ) ≤ pt.ele ∧ pt.ele < 30) ∧
      pt.cad = 120)
      (genArgsTrack (fun _ => 0) (fun _ => 0) (fun _ => 0)
        (fun lo _ _ => lo) 0 54.597311099110506 (-5.9302454388246995)
        10.0 10 120 150 120) :=
  List.forall_iff_forall_mem.mpr
    (claim_C4_value_ranges (fun _ => 0) (fun _ => 0) (fun _ => 0)
      (fun lo _ _ => lo) 0 54.597311099110506 (-5.9302454388246995) 10.0 10
      120 150 120 (fun _ => ⟨le_refl 0, by norm_num⟩)
      (fun lo hi k h => ⟨le_refl lo, h⟩) (by norm_num)).2

/-- Unfolding of the walk at absolute start index 0. -/
theorem walkFrom_zero_succ (cosf sinf : ℚ → ℚ) (u : ℕ → ℚ) (distKm : ℚ)
    (s : WalkState) (j : ℕ) :
    walkFrom cosf sinf u distKm s 0 (j + 1)
      = stepWalk cosf sinf distKm (u (3 + 3 * j)) (u (4 + 3 * j))
          (walkFrom cosf sinf u distKm s 0 j) := by
  simp [walkFrom]

/-- The latitude delta of one step is at most `dist * 1.05 / 110.574` in
absolute value when the cosine oracle is bounded by one. -/
theorem latDelta_bound (dk jit c : ℚ) (hdk : 0 ≤ dk)
    (hj1 : (0.95 : ℚ) ≤ jit) (hj2 : jit ≤ 1.05) (hc : |c| ≤ 1) :
    |dk * jit * c / 110.574| ≤ dk * 1.05 / 110.574 := by
  have hjnn : (0 : ℚ) ≤ jit := le_trans (by norm_num) hj1
  have hnum : |dk * jit * c| ≤ dk * 1.05 := by
    calc |dk * jit * c| = |dk * jit| * |c| := abs_mul _ _
      _ = dk * jit * |c| := by rw [abs_of_nonneg (mul_nonneg hdk hjnn)]
      _ ≤ dk * jit * 1 := mul_le_mul_of_nonneg_left hc (mul_nonneg hdk hjnn)
      _ = dk * jit := mul_one _
      _ ≤ dk * 1.05 := mul_le_mul_of_nonneg_left hj2 hdk
  calc |dk * jit * c / 110.574| = |dk * jit * c| / |(110.574 : ℚ)| := abs_div _ _
    _ = |dk * jit * c| / 110.574 := by
        rw [abs_of_pos (by norm_num : (0 : ℚ) < 110.574)]
    _ ≤ dk * 1.05 / 110.574 := by gcongr

/-- Claim C1: each point's position arises from the previous one by a single
random-walk step — the bearing is perturbed by uniform noise within plus or
minus two degrees in radians, the step length is `dist_km` jittered by
`U(0.95, 1.05)`, latitude grows by `d cos(bearing) / 110.574` and longitude
by `d sin(bearing) / (111.320 cos(radians lat_before))` — so the latitude
displacement between consecutive points is bounded. -/
theorem claim_C1_random_walk_step (cosf sinf : ℚ → ℚ) (u : ℕ → ℚ)
    (randI : ℤ → ℤ → ℕ → ℤ)
    (time0 base_lat base_lon total_distance_km points_per_km : ℚ)
    (hr_min hr_max cad : ℤ)
    (hu : ∀ k, 0 ≤ u k ∧ u k < 1)
    (hcos : ∀ x, |cosf x| ≤ 1)
    (htot : 0 < total_distance_km)
    (hfl : 1 ≤ ⌊total_distance_km * points_per_km⌋) :
    (∀ g, generate_run_gpx cosf sinf u randI time0 base_lat base_lon
        total_distance_km points_per_km hr_min hr_max cad = Except.ok g →
      g.track = genArgsTrack cosf sinf u randI time0 base_lat base_lon
        total_distance_km points_per_km hr_min hr_max cad) ∧
    (∀ (j : ℕ) (hj : j < (genArgsTrack cosf sinf u randI time0 base_lat
        base_lon total_distance_km points_per_km hr_min hr_max cad).length),
      ((genArgsTrack cosf sinf u randI time0 base_lat base_lon
          total_distance_km points_per_km hr_min hr_max cad).get ⟨j, hj⟩).lat =
        (walkFrom cosf sinf u (genDistKm total_distance_km points_per_km)
          (startState u base_lat base_lon) 0 (j + 1)).lat ∧
      ((genArgsTrack cosf sinf u randI time0 base_lat base_lon
          total_distance_km points_per_km hr_min hr_max cad).get ⟨j, hj⟩).lon =
        (walkFrom cosf sinf u (genDistKm total_distance_km points_per_km)
          (startState u base_lat base_lon) 0 (j + 1)).lon) ∧
    (∀ j : ℕ, ∃ noise jitter : ℚ,
      noise = pyUniform (-(mathRadians 2)) (mathRadians 2) (u (3 + 3 * j)) ∧
      jitter = pyUniform 0.95 1.05 (u (4 + 3 * j)) ∧
      -(mathRadians 2) ≤ noise ∧ noise ≤ mathRadians 2 ∧
      (0.95 : ℚ) ≤ jitter ∧ jitter ≤ 1.05 ∧
      (walkFrom cosf sinf u (genDistKm total_distance_km points_per_km)
          (startState u base_lat base_lon) 0 (j + 1)).bearing =
        (walkFrom cosf sinf u (genDistKm total_distance_km points_per_km)
          (startState u base_lat base_lon) 0 j).bearing + noise ∧
      (walkFrom cosf sinf u (genDistKm total_distance_km points_per_km)
          (startState u base_lat base_lon) 0 (j + 1)).lat =
        (walkFrom cosf sinf u (genDistKm total_distance_km points_per_km)
          (startState u base_lat base_lon) 0 j).lat +
          genDistKm total_distance_km points_per_km * jitter *
            cosf ((walkFrom cosf sinf u
              (genDistKm total_distance_km points_per_km)
              (startState u base_lat base_lon) 0 j).bearing + noise) / 110.574 ∧
      (walkFrom cosf sinf u (genDistKm total_distance_km points_per_km)
          (startState u base_lat base_lon) 0 (j + 1)).lon =
        (walkFrom cosf sinf u (genDistKm total_distance_km points_per_km)
          (startState u base_lat base_lon) 0 j).lon +
          genDistKm total_distance_km points_per_km * jitter *
            sinf ((walkFrom cosf sinf u
              (genDistKm total_distance_km points_per_km)
              (startState u base_lat base_lon) 0 j).bearing + noise) /
            (111.320 * cosf (mathRadians (walkFrom cosf sinf u
              (genDistKm total_distance_km points_per_km)
              (startState u base_lat base_lon) 0 j).lat)) ∧
      |(walkFrom cosf sinf u (genDistKm total_distance_km points_per_km)
          (startState u base_lat base_lon) 0 (j + 1)).lat -
        (walkFrom cosf sinf u (genDistKm total_distance_km points_per_km)
          (startState u base_lat base_lon) 0 j).lat| ≤
        genDistKm total_distance_km points_per_km * 1.05 / 110.574) := by
  have h1 : (1 : ℚ) ≤ total_distance_km * points_per_km := by
    exact_mod_cast Int.le_floor.mp hfl
  have hpy : pyInt (total_distance_km * points_per_km)
      = ⌊total_distance_km * points_per_km⌋ :=
    pyInt_eq_floor _ (le_trans zero_le_one h1)
  have hcastpos : (0 : ℚ) < ((pyInt (total_distance_km * points_per_km) : ℤ) : ℚ) := by
    rw [hpy]
    exact_mod_cast (by omega : (0 : ℤ) < ⌊total_distance_km * points_per_km⌋)
  have hdk : 0 ≤ genDistKm total_distance_km points_per_km := by
    unfold genDistKm
    exact le_of_lt (div_pos htot hcastpos)
  have hr2 : (0 : ℚ) < mathRadians 2 := by norm_num [mathRadians, mathPi]
  refine ⟨generate_track_eq cosf sinf u randI time0 base_lat base_lon
    total_distance_km points_per_km hr_min hr_max cad, ?_, ?_⟩
  · intro j hj
    have hjn : j < (pyInt (total_distance_km * points_per_km)).toNat := by
      simpa [genArgsTrack, genPointsAux_length] using hj
    have hget := genPointsAux_get cosf sinf u randI hr_min hr_max cad
      (genDistKm total_distance_km points_per_km) time0 (360 / points_per_km)
      ((pyInt (total_distance_km * points_per_km)).toNat) 0
      (startState u base_lat base_lon) j hjn hj
    exact ⟨congrArg TrackPoint.lat hget, congrArg TrackPoint.lon hget⟩
  · intro j
    have hk3 := hu (3 + 3 * j)
    have hk4 := hu (4 + 3 * j)
    have hj1 : (0.95 : ℚ) ≤ pyUniform 0.95 1.05 (u (4 + 3 * j)) := by
      unfold pyUniform
      nlinarith [hk4.1]
    have hj2 : pyUniform 0.95 1.05 (u (4 + 3 * j)) ≤ 1.05 := by
      unfold pyUniform
      nlinarith [hk4.2]
    refine ⟨pyUniform (-(mathRadians 2)) (mathRadians 2) (u (3 + 3 * j)),
      pyUniform 0.95 1.05 (u (4 + 3 * j)), rfl, rfl, ?_, ?_, hj1, hj2,
      ?_, ?_, ?_, ?_⟩
    · unfold pyUniform
      nlinarith [mul_nonneg (le_of_lt hr2) hk3.1]
    · unfold pyUniform
      nlinarith [mul_nonneg (le_of_lt hr2)
        (by linarith [hk3.2] : (0 : ℚ) ≤ 1 - u (3 + 3 * j))]
    · rw [walkFrom_zero_succ]
      rfl
    · rw [walkFrom_zero_succ]
      rfl
    · rw [walkFrom_zero_succ]
      rfl
    · rw [walkFrom_zero_succ]
      simp only [stepWalk]
      rw [add_sub_cancel_left]
      exact latDelta_bound _ _ _ hdk hj1 hj2 (hcos _)

/-- Witness for C1 with trivial oracles and the default distances: the
step relation at the first point (index 0). -/
theorem claim_C1_witness :
    ∃ noise jitter : ℚ,
      noise = pyUniform (-(mathRadians 2)) (mathRadians 2) 0 ∧
      jitter = pyUniform 0.95 1.05 0 ∧
      -(mathRadians 2) ≤ noise ∧ noise ≤ mathRadians 2 ∧
      (0.95 : ℚ) ≤ jitter ∧ jitter ≤ 1.05 ∧
      (walkFrom (fun _ => 0) (fun _ => 0) (fun _ => 0) (genDistKm 10.0 10)
          (startState (fun _ => 0) 54.597311099110506 (-5.9302454388246995))
          0 1).bearing =
        (walkFrom (fun _ => 0) (fun _ => 0) (fun _ => 0) (genDistKm 10.0 10)
          (startState (fun _ => 0) 54.597311099110506 (-5.9302454388246995))
          0 0).bearing + noise ∧
      (walkFrom (fun _ => 0) (fun _ => 0) (fun _ => 0) (genDistKm 10.0 10)
          (startState (fun _ => 0) 54.597311099110506 (-5.9302454388246995))
          0 1).lat =
        (walkFrom (fun _ => 0) (fun _ => 0) (fun _ => 0) (genDistKm 10.0 10)
          (startState (fun _ => 0) 54.597311099110506 (-5.9302454388246995))
          0 0).lat +
          genDistKm 10.0 10 * jitter *
            (fun _ => (0 : ℚ)) ((walkFrom (fun _ => 0) (fun _ => 0)
              (fun _ => 0) (genDistKm 10.0 10)
              (startState (fun _ => 0) 54.597311099110506
                (-5.9302454388246995)) 0 0).bearing + noise) / 110.574 ∧
      (walkFrom (fun _ => 0) (fun _ => 0) (fun _ => 0) (genDistKm 10.0 10)
          (startState (fun _ => 0) 54.597311099110506 (-5.9302454388246995))
          0 1).lon =
        (walkFrom (fun _ => 0) (fun _ => 0) (fun _ => 0) (genDistKm 10.0 10)
          (startState (fun _ => 0) 54.597311099110506 (-5.9302454388246995))
          0 0).lon +
          genDistKm 10.0 10 * jitter *
            (fun _ => (0 : ℚ)) ((walkFrom (fun _ => 0) (fun _ => 0)
              (fun _ => 0) (genDistKm 10.0 10)
              (startState (fun _ => 0) 54.597311099110506
                (-5.9302454388246995)) 0 0).bearing + noise) /
            (111.320 * (fun _ => (0 : ℚ)) (mathRadians (walkFrom (fun _ => 0)
              (fun _ => 0) (fun _ => 0) (genDistKm 10.0 10)
              (startState (fun _ => 0) 54.597311099110506
                (-5.9302454388246995)) 0 0).lat)) ∧
      |(walkFrom (fun _ => 0) (fun _ => 0) (fun _ => 0) (genDistKm 10.0 10)
          (startState (fun _ => 0) 54.597311099110506 (-5.9302454388246995))
          0 1).lat -
        (walkFrom (fun _ => 0) (fun _ => 0) (fun _ => 0) (genDistKm 10.0 10)
          (startState (fun _ => 0) 54.597311099110506 (-5.9302454388246995))
          0 0).lat| ≤ genDistKm 10.0 10 * 1.05 / 110.574 :=
  (claim_C1_random_walk_step (fun _ => 0) (fun _ => 0) (fun _ => 0)
    (fun lo _ _ => lo) 0 54.597311099110506 (-5.9302454388246995) 10.0 10
    120 150 120 (fun _ => ⟨le_refl 0, by norm_num⟩)
    (fun _ => by norm_num) (by norm_num) (by norm_num [Int.le_floor])).2.2 0

/-- Attributes of an element (empty for text nodes). -/
def attrsOf : Xml → List (String × String)
  | .elem _ _ a _ => a
  | .text _ => []

/-- Claim C5 (namespace prefix of the `TrackPointExtension` block): the
serializer was never told the `ns3` prefix — only the default and `xsi`
prefixes are registered at lines 28-29 — so `ET.tostring` assigns the
generated prefix `ns0` to the Garmin extension namespace, declares it on
the `trk` element, and the emitted `trkpt` extensions read
`ns0:TrackPointExtension`, not the `ns3:TrackPointExtension` promised by
the module docstring and by the (unused) `xmlns:ns3` declaration of the
literal header. -/
theorem claim_C5_ns_prefix_bug :
    nsAssign (collectUris (trkXml
        [{ lat := 0, lon := 0, ele := 0, time := 0, hr := 0, cad := 0 }]))
      = [(NS_NS3, "ns0")] ∧
    tagOf (childAt (childAt (childAt (childAt (toPrefixed (trkXml
        [{ lat := 0, lon := 0, ele := 0, time := 0, hr := 0, cad := 0 }]))
        2) 0) 2) 0) = "ns0:TrackPointExtension" ∧
    attrsOf (toPrefixed (trkXml
        [{ lat := 0, lon := 0, ele := 0, time := 0, hr := 0, cad := 0 }]))
      = [("xmlns:ns0", NS_NS3)] ∧
    "ns0:TrackPointExtension" ≠ "ns3:TrackPointExtension" := by
  refine ⟨by decide, by decide, by decide, by decide⟩

/-- Witness for C6 at the epoch start instant and default parameters. -/
theorem claim_C6_witness :
    ∃ g, generate_run_gpx (fun _ => 0) (fun _ => 0) (fun _ => 0)
        (fun lo _ _ => lo) 0 54.597311099110506 (-5.9302454388246995)
        10.0 10 120 150 120 = Except.ok g ∧
      g.mkdirArg = "output" ∧
      g.writtenFile =
        "output/run_" ++ dateDigits 0 ++ "_" ++ timeDigits 0 ++ ".gpx" ∧
      g.printed = "GPX file saved to " ++ g.writtenFile ∧
      g.returned = g.writtenFile ∧
      g.content = gpxHeader ++ prettyXml (toPrefixed (metadataXml 0)) ++ "\n" ++
        prettyXml (toPrefixed (trkXml g.track)) ++ "</gpx>" ∧
      (∀ h0 : 0 < g.track.length, (g.track.get ⟨0, h0⟩).time = 0) :=
  claim_C6_output (fun _ => 0) (fun _ => 0) (fun _ => 0) (fun lo _ _ => lo) 0
    54.597311099110506 (-5.9302454388246995) 10.0 10 120 150 120
    (by norm_num [Int.le_floor])
